import Mathlib

/-!
Verification of the export-artifact lifecycle tracker: the record model and
its derived status flags, the status display chain of the export-records
table component, the action gate, the action dispatcher and the polling
controller.  Definitions taken from the table component source
(src/unnamed/part_001) are marked as such; the record model, gate,
dispatcher and polling controller are not part of the provided sources and
are modelled from the specification.
-/

namespace GalaxyExport

/-- Modelled from the spec: the raw job status of an export record, one of
the three known values `preparing`, `ready`, `failed` (spec section 3,
`jobState`).  The record constructor itself is missing from the sources. -/
inductive JobState where
  | preparing
  | ready
  | failed
deriving DecidableEq

/-- Modelled from the spec: the ExportRecord value (spec section 3) with its
raw backend-supplied fields.  Timestamps are modelled as natural numbers.
`expiresAt = none` means the record never expires.  The model source file is
missing from the provided sources. -/
structure ExportRecord where
  id : String
  createdAt : Nat
  format : String
  expiresAt : Option Nat
  jobState : JobState
  sourceLastModifiedAt : Nat
deriving DecidableEq

/-- Modelled from the spec: `hasExpired` = `expiresAt` is set and is before
"now" (spec section 3, derived flags). -/
def hasExpired (r : ExportRecord) (now : Nat) : Bool :=
  match r.expiresAt with
  | some e => e < now
  | none => false

/-- Modelled from the spec: `isPreparing` = `jobState == preparing`. -/
def isPreparing (r : ExportRecord) : Bool :=
  r.jobState = JobState.preparing

/-- Modelled from the spec: `isReady` = `jobState == ready` and not
`hasExpired`. -/
def isReady (r : ExportRecord) (now : Nat) : Bool :=
  decide (r.jobState = JobState.ready) && !hasExpired r now

/-- Modelled from the spec: `isUpToDate` = `createdAt >=
sourceLastModifiedAt`. -/
def isUpToDate (r : ExportRecord) : Bool :=
  r.sourceLastModifiedAt ≤ r.createdAt

/-- Modelled from the spec: `canDownload` = `isReady`. -/
def canDownload (r : ExportRecord) (now : Nat) : Bool :=
  isReady r now

/-- Modelled from the spec: `canReimport` = `isReady` (staleness is advisory
only). -/
def canReimport (r : ExportRecord) (now : Nat) : Bool :=
  isReady r now

/-- Modelled from the spec: the enriched record exposes the expiration
instant as `expirationDate` (the table component of part_001 reads
`row.item.expirationDate`). -/
def expirationDate (r : ExportRecord) : Option Nat :=
  r.expiresAt

/-- Modelled from the spec: `expirationElapsedTime`, the human-facing
duration-to-now string shown while `expiresAt` is set and not yet passed
(spec section 4.2).  Its exact text is not given by the sources; only the
fact that it is a string derived from the record and "now" matters here. -/
def expirationElapsedTime (r : ExportRecord) (now : Nat) : String :=
  match r.expiresAt with
  | some e => toString (e - now)
  | none => ""

/-- The four user-facing states a record row can display. -/
inductive DisplayState where
  | ready
  | preparing
  | expired
  | failed
deriving DecidableEq

/-- The status icon chain of the export-records table, from
src/unnamed/part_001 lines 88-110 (template cell isReady): `v-if
isReady` shows the ready icon, `v-else-if isPreparing` the spinner,
`v-else-if hasExpired` the expired icon, `v-else` the failed icon. -/
def displayState (r : ExportRecord) (now : Nat) : DisplayState :=
  if isReady r now then DisplayState.ready
  else if isPreparing r then DisplayState.preparing
  else if hasExpired r now then DisplayState.expired
  else DisplayState.failed

/-- The same four-way decision written in the precedence the spec states
(section 4.2): `isPreparing` first, then `hasExpired`, then
`isReady`/failed.  Used only to compare with `displayState`, which follows
the source's order. -/
def displayStateSpecOrder (r : ExportRecord) (now : Nat) : DisplayState :=
  if isPreparing r then DisplayState.preparing
  else if hasExpired r now then DisplayState.expired
  else if isReady r now then DisplayState.ready
  else DisplayState.failed

/-- The three alternative contents of the expiration column, from
src/unnamed/part_001 lines 69-75 (template cell expires): the literal
text "Expired" when `hasExpired`, otherwise the remaining-time string when
`expirationDate` is set, otherwise the literal text "No". -/
inductive ExpiresCell where
  | expiredText
  | remaining (s : String)
  | noExpiration
deriving DecidableEq

/-- The expiration column decision of src/unnamed/part_001 lines 69-75:
`v-if hasExpired` shows "Expired", `v-else-if expirationDate` shows
`expirationElapsedTime`, `v-else` shows "No". -/
def expiresCell (r : ExportRecord) (now : Nat) : ExpiresCell :=
  if hasExpired r now then ExpiresCell.expiredText
  else
    match expirationDate r with
    | some _ => ExpiresCell.remaining (expirationElapsedTime r now)
    | none => ExpiresCell.noExpiration

/-- The literal text each expiration-column alternative renders. -/
def cellText : ExpiresCell → String
  | ExpiresCell.expiredText => "Expired"
  | ExpiresCell.remaining s => s
  | ExpiresCell.noExpiration => "No"

/-- A record used as concrete counterexample input: `jobState = preparing`
with `expiresAt` set in the past relative to the evaluation instant 2. -/
def prepExpiredRec : ExportRecord :=
  { id := "r1", createdAt := 0, format := "rocrate.zip",
    expiresAt := some 1, jobState := JobState.preparing,
    sourceLastModifiedAt := 0 }

/-- C1: `hasExpired` and `isReady` never both hold, and with `expiresAt` in
the past and `jobState = ready`, `isReady` is false and `hasExpired` is
true (expiry dominates readiness). -/
theorem expiry_dominates_readiness (r : ExportRecord) (now : Nat) :
    ¬(hasExpired r now = true ∧ isReady r now = true) ∧
    (∀ e, r.expiresAt = some e → e < now → r.jobState = JobState.ready →
      isReady r now = false ∧ hasExpired r now = true) := by
  constructor
  · rintro ⟨hExp, hReady⟩
    simp [isReady, hExp] at hReady
  · intro e hE hLt hJob
    have hExp : hasExpired r now = true := by
      simp [hasExpired, hE, hLt]
    constructor
    · simp [isReady, hExp]
    · exact hExp

/-- Witness for C1 at a concrete ready record whose expiry lies in the
past. -/
theorem expiry_dominates_readiness_witness :
    isReady { prepExpiredRec with jobState := JobState.ready } 2 = false ∧
    hasExpired { prepExpiredRec with jobState := JobState.ready } 2 = true :=
  (expiry_dominates_readiness { prepExpiredRec with jobState := JobState.ready } 2).2
    1 rfl (by decide) rfl

/-- C2: the display chain reports exactly one of the four states
{preparing, ready, failed, expired} for every record and evaluation
instant: the count of the four state tests that succeed is exactly one. -/
theorem display_state_exclusive_exhaustive (r : ExportRecord) (now : Nat) :
    List.count true
      [decide (displayState r now = DisplayState.preparing),
       decide (displayState r now = DisplayState.ready),
       decide (displayState r now = DisplayState.expired),
       decide (displayState r now = DisplayState.failed)] = 1 := by
  cases h : displayState r now <;> simp [h, List.count]

/-- C3: the source's status chain (isReady, then isPreparing, then
hasExpired, then failed) is extensionally equal to the spec's stated
precedence (isPreparing, then hasExpired, then isReady/failed), and an
expired record whose job state is ready is displayed as expired, never as
ready. -/
theorem check_order_equivalent (r : ExportRecord) (now : Nat) :
    displayState r now = displayStateSpecOrder r now ∧
    (hasExpired r now = true → r.jobState = JobState.ready →
      displayState r now = DisplayState.expired ∧
      displayState r now ≠ DisplayState.ready) := by
  constructor
  · cases hJ : r.jobState <;>
      cases hE : hasExpired r now <;>
        simp [displayState, displayStateSpecOrder, isReady, isPreparing, hJ, hE]
  · intro hExp hJob
    have : displayState r now = DisplayState.expired := by
      simp [displayState, isReady, isPreparing, hJob, hExp]
    simp [this]

/-- Witness for C3 at a concrete expired-but-ready record. -/
theorem check_order_equivalent_witness :
    displayState { prepExpiredRec with jobState := JobState.ready } 2 =
      DisplayState.expired :=
  ((check_order_equivalent { prepExpiredRec with jobState := JobState.ready } 2).2
    (by decide) rfl).1

/-- C4 counterexample: a record with `jobState = preparing` and `expiresAt`
set in the past has `hasExpired = true` at instant 2, contradicting the
claim that `hasExpired` is false for every preparing record. -/
theorem preparing_expiry_counterexample :
    prepExpiredRec.jobState = JobState.preparing ∧
    hasExpired prepExpiredRec 2 = true := by
  decide

/-- C4 amended: for every record with `jobState = preparing`, `isReady` is
false at every instant regardless of `expiresAt`; `hasExpired` is
determined solely by `expiresAt` and "now", independent of the job state,
and can be true for a preparing record. -/
theorem preparing_not_ready (r r' : ExportRecord) (now : Nat) :
    (r.jobState = JobState.preparing → isReady r now = false) ∧
    (r.expiresAt = r'.expiresAt → hasExpired r now = hasExpired r' now) := by
  constructor
  · intro hJob
    simp [isReady, hJob]
  · intro hE
    simp [hasExpired, hE]

/-- Witness for the amended C4 at the concrete preparing record with past
expiry. -/
theorem preparing_not_ready_witness :
    isReady prepExpiredRec 2 = false :=
  (preparing_not_ready prepExpiredRec prepExpiredRec 2).1 rfl

/-- Modelled from the spec: the Action Dispatcher's state (spec sections
4.3 and 4.5, missing from the sources) is the set of record ids with an
in-flight (busy) download or reimport request, kept as a list. -/
structure DispatcherState where
  busy : List String
deriving DecidableEq

/-- Modelled from the spec: a record is busy while a reimport or download
request for its id is in flight. -/
def isBusy (s : DispatcherState) (rid : String) : Bool :=
  rid ∈ s.busy

/-- Modelled from the spec: the gate reports download unavailable for a
busy record id, independent of the derived flags; otherwise it is
`canDownload`. -/
def canDownloadGate (s : DispatcherState) (r : ExportRecord) (now : Nat) : Bool :=
  !isBusy s r.id && canDownload r now

/-- Modelled from the spec: the gate reports reimport unavailable for a
busy record id, independent of the derived flags; otherwise it is
`canReimport`. -/
def canReimportGate (s : DispatcherState) (r : ExportRecord) (now : Nat) : Bool :=
  !isBusy s r.id && canReimport r now

/-- Outcome of one reimport invocation: the resulting dispatcher state and
the number of network requests the call issued. -/
structure ReimportResult where
  state : DispatcherState
  requestsIssued : Nat
deriving DecidableEq

/-- Modelled from the spec: `reimport(record)` requires the gate; when the
gate rejects it, no request is issued and the state is unchanged; when the
gate admits it, the record is marked busy and exactly one request is
issued (spec section 4.5). -/
def reimport (s : DispatcherState) (r : ExportRecord) (now : Nat) : ReimportResult :=
  if canReimportGate s r now then
    { state := { busy := r.id :: s.busy }, requestsIssued := 1 }
  else
    { state := s, requestsIssued := 0 }

/-- Modelled from the spec: when the in-flight action for a record id
resolves, with success or failure alike, the busy flag for that id is
cleared (guaranteed-release semantics, spec section 7). -/
def resolveAction (s : DispatcherState) (rid : String) : DispatcherState :=
  { busy := s.busy.erase rid }

/-- C5: a busy record's gates are false regardless of the derived flags; a
reimport admitted by the gate issues one request and a second reimport on
the same record before the first resolves is rejected with no second
request and no state change; once the in-flight action resolves the gates
are again exactly the derived flags. -/
theorem busy_gate (s : DispatcherState) (r : ExportRecord) (now : Nat) :
    (isBusy s r.id = true →
      canDownloadGate s r now = false ∧ canReimportGate s r now = false) ∧
    (canReimportGate s r now = true →
      (reimport s r now).requestsIssued = 1 ∧
      (reimport (reimport s r now).state r now).requestsIssued = 0 ∧
      (reimport (reimport s r now).state r now).state = (reimport s r now).state ∧
      canReimportGate (resolveAction (reimport s r now).state r.id) r now =
        canReimport r now ∧
      canDownloadGate (resolveAction (reimport s r now).state r.id) r now =
        canDownload r now) := by
  constructor
  · intro hBusy
    simp [canDownloadGate, canReimportGate, hBusy]
  · intro hGate
    have hNotBusy : isBusy s r.id = false := by
      by_contra h
      have hb : isBusy s r.id = true := by
        cases hq : isBusy s r.id
        · exact absurd hq h
        · rfl
      simp [canReimportGate, hb] at hGate
    have hStep : reimport s r now =
        { state := { busy := r.id :: s.busy }, requestsIssued := 1 } := by
      simp [reimport, hGate]
    have hBusyAfter : isBusy { busy := r.id :: s.busy } r.id = true := by
      simp [isBusy]
    have hErase : ({ busy := r.id :: s.busy } : DispatcherState).busy.erase r.id
        = s.busy := List.erase_cons_head r.id s.busy
    have hRes : resolveAction { busy := r.id :: s.busy } r.id = { busy := s.busy } := by
      simp [resolveAction, hErase]
    have hStillIdle : isBusy { busy := s.busy } r.id = false := hNotBusy
    refine ⟨by simp [hStep], ?_, ?_, ?_, ?_⟩
    · rw [hStep]
      simp [reimport, canReimportGate, hBusyAfter]
    · rw [hStep]
      simp [reimport, canReimportGate, hBusyAfter]
    · rw [hStep]
      simp only [hRes]
      simp [canReimportGate, hStillIdle]
    · rw [hStep]
      simp only [hRes]
      simp [canDownloadGate, hStillIdle]

/-- A concrete ready, unexpired record used by witnesses. -/
def readyRec : ExportRecord :=
  { id := "r2", createdAt := 5, format := "rocrate.zip",
    expiresAt := some 10, jobState := JobState.ready,
    sourceLastModifiedAt := 3 }

/-- Witness for C5: with a busy record the download gate is closed; from an
idle dispatcher a first reimport of a ready record issues one request and
an immediate second reimport issues none. -/
theorem busy_gate_witness :
    canDownloadGate { busy := ["r2"] } readyRec 7 = false ∧
    (reimport { busy := [] } readyRec 7).requestsIssued = 1 ∧
    (reimport (reimport { busy := [] } readyRec 7).state readyRec 7).requestsIssued
      = 0 := by
  refine ⟨((busy_gate { busy := ["r2"] } readyRec 7).1 (by decide)).1, ?_, ?_⟩
  · exact ((busy_gate { busy := [] } readyRec 7).2 (by decide)).1
  · exact ((busy_gate { busy := [] } readyRec 7).2 (by decide)).2.1

/-- Modelled from the spec: the Polling Controller's state (spec section
4.4, missing from the sources): whether the loop has been cancelled, and
the currently visible record list. -/
structure PollState where
  cancelled : Bool
  records : List ExportRecord
deriving DecidableEq

/-- Modelled from the spec: the events the Polling Controller reacts to: a
fetch response replacing the record list atomically, and cancellation when
the owning view is torn down. -/
inductive PollEvent where
  | updateRecords (rs : List ExportRecord)
  | cancel
deriving DecidableEq

/-- Modelled from the spec: the controller's transition function.
Cancellation is permanent; a record update replaces the list in full. -/
def pollStep : PollState → PollEvent → PollState
  | s, PollEvent.updateRecords rs => { s with records := rs }
  | s, PollEvent.cancel => { s with cancelled := true }

/-- Modelled from the spec: the number of fetches the controller schedules
in one interval: none after cancellation, one while at least one visible
record is preparing, none once no record is preparing (spec section 4.4). -/
def fetchesThisTick (s : PollState) : Nat :=
  if s.cancelled then 0
  else if s.records.any (fun r => isPreparing r) then 1
  else 0

theorem displayState_preparing_iff (r : ExportRecord) (now : Nat) :
    displayState r now = DisplayState.preparing ↔ isPreparing r = true := by
  cases hJ : r.jobState <;> cases hE : hasExpired r now <;>
    simp [displayState, isReady, isPreparing, hJ, hE]

theorem pollStep_cancelled (s : PollState) (e : PollEvent)
    (h : s.cancelled = true) : (pollStep s e).cancelled = true := by
  cases e <;> simp [pollStep, h]

theorem pollRun_cancelled (events : List PollEvent) (s : PollState)
    (h : s.cancelled = true) :
    (List.foldl pollStep s events).cancelled = true := by
  induction events generalizing s with
  | nil => exact h
  | cons e es ih => exact ih _ (pollStep_cancelled s e h)

/-- C6: the controller schedules zero fetches once every visible record is
terminal (its display state is not preparing), exactly one fetch per
interval while some visible record is preparing and the loop is not
cancelled, and zero fetches forever after cancellation, whatever events
follow. -/
theorem polling_controller (s : PollState) (now : Nat) (events : List PollEvent) :
    ((∀ r ∈ s.records, displayState r now ≠ DisplayState.preparing) →
      fetchesThisTick s = 0) ∧
    (s.cancelled = false → (∃ r ∈ s.records, isPreparing r = true) →
      fetchesThisTick s = 1) ∧
    fetchesThisTick (List.foldl pollStep (pollStep s PollEvent.cancel) events) = 0 := by
  refine ⟨?_, ?_, ?_⟩
  · intro hTerm
    by_cases hc : s.cancelled
    · simp [fetchesThisTick, hc]
    · have hAny : s.records.any (fun r => isPreparing r) = false := by
        rw [List.any_eq_false]
        intro r hr hPrep
        exact hTerm r hr ((displayState_preparing_iff r now).2 hPrep)
      simp [fetchesThisTick, hc, hAny]
  · intro hc hEx
    obtain ⟨r, hr, hPrep⟩ := hEx
    have hAny : s.records.any (fun r => isPreparing r) = true :=
      List.any_eq_true.2 ⟨r, hr, hPrep⟩
    simp [fetchesThisTick, hc, hAny]
  · have h1 : (pollStep s PollEvent.cancel).cancelled = true := rfl
    have h2 := pollRun_cancelled events _ h1
    simp [fetchesThisTick, h2]

/-- Witness for C6: a list with only a terminal (ready) record yields zero
fetches, a list with a preparing record yields one, and after cancellation
even an update bringing back a preparing record yields zero. -/
theorem polling_controller_witness :
    fetchesThisTick { cancelled := false, records := [readyRec] } = 0 ∧
    fetchesThisTick { cancelled := false, records := [prepExpiredRec] } = 1 ∧
    fetchesThisTick
      (List.foldl pollStep
        (pollStep { cancelled := false, records := [prepExpiredRec] } PollEvent.cancel)
        [PollEvent.updateRecords [prepExpiredRec]]) = 0 := by
  refine ⟨?_, ?_, ?_⟩
  · exact (polling_controller { cancelled := false, records := [readyRec] } 7 []).1
      (by decide)
  · exact (polling_controller { cancelled := false, records := [prepExpiredRec] } 7 []).2.1
      rfl ⟨prepExpiredRec, by simp, by decide⟩
  · exact (polling_controller { cancelled := false, records := [prepExpiredRec] } 7
      [PollEvent.updateRecords [prepExpiredRec]]).2.2

/-- Modelled from the spec: the raw record structure as received from the
backend, before validation (spec section 4.1, missing from the sources):
`id`, `createdAt` and `jobState` may be absent, and `jobState` arrives as
an uninterpreted string. -/
structure RawRecord where
  id : Option String
  createdAt : Option Nat
  format : String
  expiresAt : Option Nat
  jobState : Option String
  sourceLastModifiedAt : Nat
deriving DecidableEq

/-- Modelled from the spec: interpretation of the raw `jobState` string;
anything outside the three known values is rejected. -/
def parseJobState : String → Option JobState
  | "preparing" => some JobState.preparing
  | "ready" => some JobState.ready
  | "failed" => some JobState.failed
  | _ => none

/-- Modelled from the spec: record construction fails (rejects the record)
if `id`, `createdAt` or `jobState` is missing or `jobState` is not one of
the three known values (spec section 4.1). -/
def parseRecord (raw : RawRecord) : Option ExportRecord :=
  match raw.id, raw.createdAt, raw.jobState with
  | some i, some c, some js =>
      match parseJobState js with
      | some st =>
          some { id := i, createdAt := c, format := raw.format,
                 expiresAt := raw.expiresAt, jobState := st,
                 sourceLastModifiedAt := raw.sourceLastModifiedAt }
      | none => none
  | _, _, _ => none

/-- Modelled from the spec: the enriched list keeps exactly the records
that validate; an offending record is dropped rather than crashing the
whole list (spec section 7).  Derivation and gating are total functions,
so no evaluation of them can raise. -/
def enrichRecords (raws : List RawRecord) : List ExportRecord :=
  raws.filterMap parseRecord

/-- A raw record is invalid when `id`, `createdAt` or `jobState` is absent
or `jobState` is not one of the three known values. -/
def rawInvalid (raw : RawRecord) : Bool :=
  raw.id.isNone || raw.createdAt.isNone ||
    (match raw.jobState with
     | none => true
     | some s => (parseJobState s).isNone)

/-- C7: an invalid raw record never constructs, a record that fails to
construct is dropped from the enriched list while every record around it
is still processed, and the enriched list holds exactly the successful
constructions. -/
theorem validation_drops_only_invalid (raws pre post : List RawRecord)
    (raw : RawRecord) :
    (rawInvalid raw = true → parseRecord raw = none) ∧
    (parseRecord raw = none →
      enrichRecords (pre ++ raw :: post) = enrichRecords pre ++ enrichRecords post) ∧
    (∀ r, r ∈ enrichRecords raws ↔ ∃ raw2 ∈ raws, parseRecord raw2 = some r) := by
  refine ⟨?_, ?_, ?_⟩
  · intro hInv
    obtain ⟨i, c, f, e, js, m⟩ := raw
    cases i with
    | none => simp [parseRecord]
    | some iv =>
      cases c with
      | none => simp [parseRecord]
      | some cv =>
        cases js with
        | none => simp [parseRecord]
        | some jsv =>
          simp only [rawInvalid, Option.isNone_some, Bool.false_or] at hInv
          rw [Option.isNone_iff_eq_none] at hInv
          simp [parseRecord, hInv]
  · intro hNone
    simp [enrichRecords, List.filterMap_append, List.filterMap_cons, hNone]
  · intro r
    simp [enrichRecords, List.mem_filterMap]

/-- A concrete raw record missing `jobState`. -/
def badRaw : RawRecord :=
  { id := some "b", createdAt := some 1, format := "rocrate.zip",
    expiresAt := none, jobState := none, sourceLastModifiedAt := 0 }

/-- A concrete valid raw record with `jobState = "ready"`. -/
def goodRaw : RawRecord :=
  { id := some "g", createdAt := some 2, format := "rocrate.zip",
    expiresAt := none, jobState := some "ready", sourceLastModifiedAt := 0 }

/-- Witness for C7: the record missing `jobState` is rejected and dropped,
while the valid record in the same response is still in the enriched
list. -/
theorem validation_drops_only_invalid_witness :
    parseRecord badRaw = none ∧
    enrichRecords ([goodRaw] ++ badRaw :: []) =
      enrichRecords [goodRaw] ++ enrichRecords [] ∧
    ({ id := "g", createdAt := 2, format := "rocrate.zip", expiresAt := none,
       jobState := JobState.ready, sourceLastModifiedAt := 0 } : ExportRecord)
      ∈ enrichRecords [goodRaw, badRaw] := by
  have hBad : parseRecord badRaw = none :=
    (validation_drops_only_invalid [] [goodRaw] [] badRaw).1 (by decide)
  refine ⟨hBad, (validation_drops_only_invalid [] [goodRaw] [] badRaw).2.1 hBad, ?_⟩
  exact ((validation_drops_only_invalid [goodRaw, badRaw] [] [] badRaw).2.2 _).2
    ⟨goodRaw, by simp, by decide⟩

/-- The three events the table component of src/unnamed/part_001 can emit
towards its owner. -/
inductive Emitted where
  | onReimport (r : ExportRecord)
  | onDownload (r : ExportRecord)
  | onCopyDownloadLink (r : ExportRecord)
deriving DecidableEq

/-- From src/unnamed/part_001 lines 38-40: the reimport click handler only
emits. -/
def reimportObject (r : ExportRecord) : Emitted :=
  Emitted.onReimport r

/-- From src/unnamed/part_001 lines 42-44: the download click handler only
emits. -/
def downloadObject (r : ExportRecord) : Emitted :=
  Emitted.onDownload r

/-- From src/unnamed/part_001 lines 46-48: the copy-link click handler only
emits. -/
def copyDownloadLink (r : ExportRecord) : Emitted :=
  Emitted.onCopyDownloadLink r

/-- From src/unnamed/part_001 line 122: the copy-link button is rendered
exactly when `canDownload` holds for the row's record. -/
def copyLinkButtonShown (r : ExportRecord) (now : Nat) : Bool :=
  canDownload r now

/-- Modelled from the spec: `copyLink(record)` is pure and synchronous, no
backend call and no busy-state interaction (spec section 4.5, the handler
behind the emitted event is missing from the sources): it leaves the
dispatcher state unchanged, issues zero network requests and produces the
copy-link emission. -/
def copyLink (s : DispatcherState) (r : ExportRecord) :
    DispatcherState × Nat × Emitted :=
  (s, 0, copyDownloadLink r)

/-- C8: the copy-link action is offered exactly when `canDownload` holds,
which entails the record is ready and not expired, and invoking it leaves
the dispatcher state unchanged, issues no network request and only emits
the copy-link event. -/
theorem copy_link_gated_and_pure (s : DispatcherState) (r : ExportRecord)
    (now : Nat) :
    copyLinkButtonShown r now = canDownload r now ∧
    (copyLinkButtonShown r now = true →
      isReady r now = true ∧ hasExpired r now = false) ∧
    (copyLink s r).1 = s ∧
    (copyLink s r).2.1 = 0 ∧
    (copyLink s r).2.2 = Emitted.onCopyDownloadLink r := by
  refine ⟨rfl, ?_, rfl, rfl, rfl⟩
  intro hShown
  simp only [copyLinkButtonShown, canDownload, isReady, Bool.and_eq_true,
    Bool.not_eq_true', decide_eq_true_eq] at hShown
  refine ⟨?_, hShown.2⟩
  simp [isReady, hShown.1, hShown.2]

/-- Witness for C8: at a concrete ready, unexpired record the shown
copy-link button entails readiness and non-expiry. -/
theorem copy_link_gated_and_pure_witness :
    isReady readyRec 7 = true ∧ hasExpired readyRec 7 = false :=
  (copy_link_gated_and_pure { busy := [] } readyRec 7).2.1 (by decide)

/-- C9: `isUpToDate` holds exactly when `createdAt` is at least
`sourceLastModifiedAt`, and equal timestamps count as up to date. -/
theorem up_to_date_iff_created_not_older (r : ExportRecord) :
    (isUpToDate r = true ↔ r.sourceLastModifiedAt ≤ r.createdAt) ∧
    (r.createdAt = r.sourceLastModifiedAt → isUpToDate r = true) := by
  constructor
  · simp [isUpToDate]
  · intro h
    simp [isUpToDate, h]

/-- Witness for C9 at a concrete record whose timestamps are equal. -/
theorem up_to_date_iff_created_not_older_witness :
    isUpToDate { readyRec with createdAt := 3 } = true :=
  (up_to_date_iff_created_not_older { readyRec with createdAt := 3 }).2 rfl

/-- C10: an expired record's expiration cell shows the literal "Expired"
and never the remaining-time string, even when `expirationDate` is set; the
remaining-time string is shown exactly when the record is not expired and
`expirationDate` is set; otherwise the cell shows "No". -/
theorem expires_cell_behaviour (r : ExportRecord) (now : Nat) :
    (hasExpired r now = true →
      expiresCell r now = ExpiresCell.expiredText ∧
      cellText (expiresCell r now) = "Expired" ∧
      ∀ s, expiresCell r now ≠ ExpiresCell.remaining s) ∧
    (hasExpired r now = false → ∀ e, expirationDate r = some e →
      expiresCell r now = ExpiresCell.remaining (expirationElapsedTime r now)) ∧
    (hasExpired r now = false → expirationDate r = none →
      expiresCell r now = ExpiresCell.noExpiration ∧
      cellText (expiresCell r now) = "No") := by
  refine ⟨?_, ?_, ?_⟩
  · intro hExp
    simp [expiresCell, hExp, cellText]
  · intro hExp e hE
    simp [expiresCell, hExp, hE]
  · intro hExp hE
    simp [expiresCell, hExp, hE, cellText]

/-- Witness for C10: the expired preparing record shows "Expired"; the
unexpired ready record with an expiration date shows the remaining-time
string. -/
theorem expires_cell_behaviour_witness :
    expiresCell prepExpiredRec 2 = ExpiresCell.expiredText ∧
    expiresCell readyRec 7 =
      ExpiresCell.remaining (expirationElapsedTime readyRec 7) := by
  refine ⟨((expires_cell_behaviour prepExpiredRec 2).1 (by decide)).1, ?_⟩
  exact (expires_cell_behaviour readyRec 7).2.1 (by decide) 10 rfl

end GalaxyExport
